import Mathlib

/- Verification development for the micro-quant stock scanner core
   (src/main.py).  The decision engine, trade planner, failure sentinels
   and batch ordering of `fetch_data` / `scan_stocks` are embedded over ℚ
   (Python floats are modelled as exact rationals); `round(x, 2)` is
   modelled as rounding to the nearest multiple of 1/100 and Python's
   `int(x)` as truncation toward zero. -/

/-- Models Python `round(x, 2)`: round to the nearest 2-decimal value. -/
def round2 (x : ℚ) : ℚ := (round (100 * x) : ℤ) / 100

/-- Models Python `int(x)` on a real value: truncation toward zero. -/
def pytrunc (x : ℚ) : ℤ := if 0 ≤ x then ⌊x⌋ else ⌈x⌉

/-- One OHLCV bar of the fetched price history (a row of the `yf` frame). -/
structure PriceBar where
  openPrice : ℚ
  highPrice : ℚ
  lowPrice : ℚ
  close : ℚ
  volume : ℤ
deriving DecidableEq

/-- The latest-bar indicator values extracted in src/main.py lines 99-112
    (`EMA_200`, `RSI_14`, `ATRr_14`, the dynamically located MACD, MACD
    signal and ADX columns).  The pandas_ta computation itself is an
    external library, so the extracted values are taken as inputs; the
    column-absence defaults (RSI 50, MACD/ADX 0) are folded into whatever
    values the snapshot carries. -/
structure IndicatorSnapshot where
  ema_200 : ℚ
  rsi : ℚ
  atr : ℚ
  macd : ℚ
  macd_signal : ℚ
  adx : ℚ
deriving DecidableEq

/-- The `StockResult` record of src/main.py lines 42-71. -/
structure StockResult where
  ticker : String
  price : ℚ
  ema_200 : ℚ
  rsi : ℚ
  adx : ℚ
  macd : ℚ
  macd_signal : ℚ
  atr : ℚ
  volume : ℤ
  avg_volume : ℤ
  trend : String
  signal : String
  reason : String
  stop_loss : ℚ
  take_profit : ℚ
  risk_reward : ℚ
  shares_to_buy : ℤ
  position_cost : ℚ
  affordable : Bool
  actual_risk : ℚ
  error : Option String
deriving DecidableEq

/-- The (trend, signal, reason) triple produced by the decision engine. -/
structure Decision where
  trend : String
  signal : String
  reason : String
deriving DecidableEq

/-- Decision engine, src/main.py lines 114-140.  The source initialises
    `signal = "WAIT"`, `reason = "No setup."` and overwrites them in every
    branch except the final `else` of the uptrend arm, which only sets
    `reason`; branching on `trend == "Uptrend"` is branching on
    `price > ema_200`. -/
def decisionEngine (price ema_200 rsi adx macd macd_signal : ℚ) : Decision :=
  let trend := if price > ema_200 then "Uptrend" else "Downtrend"
  if price > ema_200 then
    if adx < 20 then
      ⟨trend, "AVOID", "Weak Trend (ADX " ++ toString (round adx) ++ "). Chop Zone."⟩
    else
      if rsi < 30 then
        ⟨trend, "STRONG BUY", "Extreme Oversold (<30). ADX " ++ toString (round adx) ++ "."⟩
      else
        if rsi < 50 then
          if macd > macd_signal then
            ⟨trend, "BUY SIGNAL", "Pullback + MACD Cross. ADX " ++ toString (round adx) ++ "."⟩
          else
            ⟨trend, "WATCHLIST", "Pullback active. Wait for turn. ADX " ++ toString (round adx) ++ "."⟩
        else
          ⟨trend, "WAIT", "In Uptrend, but expensive. ADX " ++ toString (round adx) ++ "."⟩
  else
    ⟨trend, "AVOID", "Downtrend (Below 200 EMA)."⟩

/-- The trade plan and position sizing fields of a `StockResult`. -/
structure TradePlan where
  stop_loss : ℚ
  take_profit : ℚ
  risk_reward : ℚ
  shares_to_buy : ℤ
  position_cost : ℚ
  affordable : Bool
  actual_risk : ℚ
deriving DecidableEq

/-- Trade planner, src/main.py lines 142-156: `shares = int(...)` is
    truncation toward zero, guarded by `risk_per_share > 0`. -/
def tradePlan (price atr account_size risk_pct : ℚ) : TradePlan :=
  let stop_loss := round2 (price - 2 * atr)
  let take_profit := round2 (price + 3 * atr)
  let risk_per_share := price - stop_loss
  let max_risk_dollars := account_size * (risk_pct / 100)
  let shares : ℤ := if risk_per_share > 0 then pytrunc (max_risk_dollars / risk_per_share) else 0
  let position_cost := round2 ((shares : ℚ) * price)
  let actual_risk := round2 ((shares : ℚ) * risk_per_share)
  let affordable := decide (position_cost ≤ account_size)
  let rr_val := if risk_per_share > 0 then round2 ((take_profit - price) / (price - stop_loss)) else 0
  ⟨stop_loss, take_profit, rr_val, shares, position_cost, affordable, actual_risk⟩

/-- `float(latest["Close"])`: close of the last bar of the history. -/
def lastClose (hist : List PriceBar) : ℚ :=
  ((hist.getLast?).map PriceBar.close).getD 0

/-- `int(latest.get("Volume", 0))`: volume of the last bar. -/
def lastVolume (hist : List PriceBar) : ℤ :=
  ((hist.getLast?).map PriceBar.volume).getD 0

/-- `int(df["Volume"].tail(20).mean())`: mean volume of the trailing
    (at most) 20 bars, truncated to an integer. -/
def avgVolume20 (hist : List PriceBar) : ℤ :=
  let vs := (hist.map PriceBar.volume).drop (hist.length - 20)
  pytrunc ((vs.sum : ℚ) / (vs.length : ℚ))

/-- The insufficient-data sentinel, src/main.py lines 84-88. -/
def insufficientResult (ticker : String) : StockResult :=
  { ticker := ticker.toUpper, price := 0, ema_200 := 0, rsi := 0, adx := 0, macd := 0,
    macd_signal := 0, atr := 0, volume := 0, avg_volume := 0,
    trend := "N/A", signal := "N/A", reason := "Insufficient Data",
    stop_loss := 0, take_profit := 0, risk_reward := 0,
    shares_to_buy := 0, position_cost := 0, affordable := false, actual_risk := 0,
    error := some "No Data" }

/-- The compute-error sentinel, src/main.py lines 182-186 (`msg` is the
    stringified exception). -/
def errorResult (ticker msg : String) : StockResult :=
  { ticker := ticker.toUpper, price := 0, ema_200 := 0, rsi := 0, adx := 0, macd := 0,
    macd_signal := 0, atr := 0, volume := 0, avg_volume := 0,
    trend := "Error", signal := "Error", reason := msg,
    stop_loss := 0, take_profit := 0, risk_reward := 0,
    shares_to_buy := 0, position_cost := 0, affordable := false, actual_risk := 0,
    error := some "Calc Error" }

/-- The success path of `fetch_data`, src/main.py lines 90-179: extract the
    latest values, run the decision engine and the trade planner, and
    assemble the result (2-decimal rounding on the numeric fields). -/
def computeResult (ticker : String) (hist : List PriceBar) (snap : IndicatorSnapshot)
    (account_size risk_pct : ℚ) : StockResult :=
  let price := lastClose hist
  let d := decisionEngine price snap.ema_200 snap.rsi snap.adx snap.macd snap.macd_signal
  let p := tradePlan price snap.atr account_size risk_pct
  { ticker := ticker.toUpper,
    price := round2 price, ema_200 := round2 snap.ema_200, rsi := round2 snap.rsi,
    adx := round2 snap.adx, macd := round2 snap.macd, macd_signal := round2 snap.macd_signal,
    atr := round2 snap.atr, volume := lastVolume hist, avg_volume := avgVolume20 hist,
    trend := d.trend, signal := d.signal, reason := d.reason,
    stop_loss := p.stop_loss, take_profit := p.take_profit, risk_reward := p.risk_reward,
    shares_to_buy := p.shares_to_buy, position_cost := p.position_cost,
    affordable := p.affordable, actual_risk := p.actual_risk,
    error := none }

/-- Outcome of the `yf` fetch plus pandas_ta indicator step for one ticker:
    either an exception (carrying its stringified message, caught by the
    `except` at src/main.py line 181) or a fetched history together with
    the extracted indicator snapshot. -/
inductive FetchOutcome where
  | failure (msg : String)
  | history (hist : List PriceBar) (snap : IndicatorSnapshot)

/-- `fetch_data`, src/main.py lines 74-186: the `df.empty or len(df) < 200`
    guard yields the insufficient-data sentinel, an exception yields the
    calc-error sentinel, otherwise the result is computed. -/
def fetch_data (ticker : String) (fetched : FetchOutcome) (account_size risk_pct : ℚ) :
    StockResult :=
  match fetched with
  | .failure msg => errorResult ticker msg
  | .history hist snap =>
    if hist = [] ∨ hist.length < 200 then insufficientResult ticker
    else computeResult ticker hist snap account_size risk_pct

/-- The signal priority map of src/main.py line 216: the dict assigns
    0-4 to the five real signals and 5 to "Error"; `.get(_, 5)` defaults
    every other string to 5 as well. -/
def priority (signal : String) : Nat :=
  if signal = "STRONG BUY" then 0
  else if signal = "BUY SIGNAL" then 1
  else if signal = "WATCHLIST" then 2
  else if signal = "WAIT" then 3
  else if signal = "AVOID" then 4
  else 5

/-- `results.sort(key=lambda x: priority.get(x.signal, 5))`, src/main.py
    line 217: Python's `list.sort` is a stable ascending sort by the key,
    modelled by a stable sort on the priority preorder. -/
def sortResults (rs : List StockResult) : List StockResult :=
  List.insertionSort (fun a b => priority a.signal ≤ priority b.signal) rs

/-- `[t.strip() for t in tickers.split(",") if t.strip()]`, src/main.py
    line 208. -/
def parseTickers (tickers : String) : List String :=
  ((tickers.splitOn ",").map String.trim).filter (fun t => t ≠ "")

/-- One `fetch_data` task per ticker, results gathered in input order
    (src/main.py lines 213-214). -/
def gatherResults (fetches : List (String × FetchOutcome)) (account_size risk_pct : ℚ) :
    List StockResult :=
  fetches.map (fun f => fetch_data f.1 f.2 account_size risk_pct)

/-- The `/scan` batch, src/main.py lines 213-217: gather all per-ticker
    results, then sort by signal priority. -/
def scan_stocks (fetches : List (String × FetchOutcome)) (account_size risk_pct : ℚ) :
    List StockResult :=
  sortResults (gatherResults fetches account_size risk_pct)

/-- A flat bar at close 100 (concrete test fixture). -/
def bar100 : PriceBar := ⟨100, 100, 100, 100, 1000⟩

/-- A 200-bar history closing at 100 (concrete test fixture). -/
def hist200 : List PriceBar := List.replicate 199 bar100 ++ [bar100]

/-- A snapshot in an uptrend with atr 3/2 (concrete test fixture). -/
def snapAtr32 : IndicatorSnapshot := ⟨90, 40, 3/2, 0, 0, 25⟩

/-- A result whose only distinguishing field is its signal (concrete test
    fixture for the batch-ordering claim). -/
def signalOnly (signal : String) : StockResult :=
  { ticker := "", price := 0, ema_200 := 0, rsi := 0, adx := 0, macd := 0,
    macd_signal := 0, atr := 0, volume := 0, avg_volume := 0,
    trend := "", signal := signal, reason := "",
    stop_loss := 0, take_profit := 0, risk_reward := 0,
    shares_to_buy := 0, position_cost := 0, affordable := false, actual_risk := 0,
    error := none }

/-- Helper: `round2` is the identity on exact 2-decimal values. -/
theorem round2_eq_self_of_int (x : ℚ) (k : ℤ) (h : 100 * x = k) : round2 x = x := by
  have hx : x = (k : ℚ) / 100 := by
    rw [eq_div_iff (by norm_num : (100 : ℚ) ≠ 0)]
    linarith [h]
  rw [round2, h, round_intCast, hx]

/-- Helper: `round2 0 = 0`. -/
theorem round2_zero : round2 0 = 0 := by
  norm_num [round2, round_eq]

/-- Helper: concrete evaluation of the trade planner at price 100,
    atr 3/2, account 10000, risk -1 percent (the negative-risk probe used
    by the sizing claims). -/
theorem tradePlan_neg_risk_eval :
    tradePlan 100 (3/2) 10000 (-1) = ⟨97, 209/2, 3/2, -33, -3300, true, -99⟩ := by
  have hstop : round2 (100 - 2 * (3/2) : ℚ) = 97 := by norm_num [round2, round_eq]
  have htp : round2 (100 + 3 * (3/2) : ℚ) = 209/2 := by norm_num [round2, round_eq]
  rw [tradePlan, hstop, htp]
  norm_num [pytrunc, Int.ceil_neg, round2, round_eq]

/-- C1: for every price history that is empty or has fewer than 200 bars,
    `fetch_data` returns the insufficient-data sentinel: trend and signal
    "N/A", reason "Insufficient Data", error "No Data", and every numeric
    field equal to 0 — no classification or trade planning is attempted. -/
theorem fetch_data_insufficient (ticker : String) (hist : List PriceBar)
    (snap : IndicatorSnapshot) (account_size risk_pct : ℚ)
    (h : hist = [] ∨ hist.length < 200) :
    let res := fetch_data ticker (.history hist snap) account_size risk_pct
    res.trend = "N/A" ∧ res.signal = "N/A" ∧ res.reason = "Insufficient Data" ∧
    res.error = some "No Data" ∧ res.price = 0 ∧ res.ema_200 = 0 ∧ res.rsi = 0 ∧
    res.adx = 0 ∧ res.macd = 0 ∧ res.macd_signal = 0 ∧ res.atr = 0 ∧ res.volume = 0 ∧
    res.avg_volume = 0 ∧ res.stop_loss = 0 ∧ res.take_profit = 0 ∧ res.risk_reward = 0 ∧
    res.shares_to_buy = 0 ∧ res.position_cost = 0 ∧ res.actual_risk = 0 := by
  simp only [fetch_data]
  rw [if_pos h]
  simp [insufficientResult]

/-- Witness for C1 at the empty history. -/
theorem fetch_data_insufficient_witness :
    let res := fetch_data "aapl" (.history [] ⟨0, 0, 0, 0, 0, 0⟩) 10000 1
    res.trend = "N/A" ∧ res.signal = "N/A" ∧ res.reason = "Insufficient Data" ∧
    res.error = some "No Data" ∧ res.price = 0 ∧ res.ema_200 = 0 ∧ res.rsi = 0 ∧
    res.adx = 0 ∧ res.macd = 0 ∧ res.macd_signal = 0 ∧ res.atr = 0 ∧ res.volume = 0 ∧
    res.avg_volume = 0 ∧ res.stop_loss = 0 ∧ res.take_profit = 0 ∧ res.risk_reward = 0 ∧
    res.shares_to_buy = 0 ∧ res.position_cost = 0 ∧ res.actual_risk = 0 :=
  fetch_data_insufficient "aapl" [] ⟨0, 0, 0, 0, 0, 0⟩ 10000 1 (Or.inl rfl)

/-- C2: whenever price ≤ ema_200 the decision engine returns trend
    "Downtrend", signal "AVOID" and reason exactly
    "Downtrend (Below 200 EMA).", whatever adx, rsi, macd and macd_signal
    are. -/
theorem decision_downtrend_avoid (price ema_200 rsi adx macd macd_signal : ℚ)
    (d : Decision) (h : price ≤ ema_200)
    (hd : d = decisionEngine price ema_200 rsi adx macd macd_signal) :
    d.trend = "Downtrend" ∧ d.signal = "AVOID" ∧
    d.reason = "Downtrend (Below 200 EMA)." := by
  subst hd
  have hng : ¬ (price > ema_200) := not_lt.mpr h
  simp only [decisionEngine, if_neg hng]
  simp

/-- Witness for C2: price 100 below a 110 EMA, with momentum values that
    would otherwise fire the buy branches. -/
theorem decision_downtrend_avoid_witness :
    (decisionEngine 100 110 25 30 5 1).trend = "Downtrend" ∧
    (decisionEngine 100 110 25 30 5 1).signal = "AVOID" ∧
    (decisionEngine 100 110 25 30 5 1).reason = "Downtrend (Below 200 EMA)." :=
  decision_downtrend_avoid 100 110 25 30 5 1 _ (by norm_num) rfl

/-- C3: whenever price > ema_200 and adx < 20 the decision engine returns
    signal "AVOID" and a reason containing "Chop Zone" and the rounded ADX
    value, whatever rsi, macd and macd_signal are (the chop filter
    dominates the momentum rules). -/
theorem decision_chop_avoid (price ema_200 rsi adx macd macd_signal : ℚ)
    (d : Decision) (h1 : price > ema_200) (h2 : adx < 20)
    (hd : d = decisionEngine price ema_200 rsi adx macd macd_signal) :
    d.signal = "AVOID" ∧
    d.reason = "Weak Trend (ADX " ++ toString (round adx) ++ "). Chop Zone." ∧
    (∃ u v : String, d.reason = u ++ "Chop Zone" ++ v) ∧
    (∃ u v : String, d.reason = u ++ toString (round adx) ++ v) := by
  have hD : decisionEngine price ema_200 rsi adx macd macd_signal =
      ⟨"Uptrend", "AVOID", "Weak Trend (ADX " ++ toString (round adx) ++ "). Chop Zone."⟩ := by
    simp only [decisionEngine, if_pos h1, if_pos h2]
  subst hd
  refine ⟨by rw [hD], by rw [hD], ?_, ?_⟩
  · refine ⟨"Weak Trend (ADX " ++ toString (round adx) ++ "). ", ".", ?_⟩
    rw [hD]
    simp only [String.append_assoc]
    rfl
  · exact ⟨"Weak Trend (ADX ", "). Chop Zone.", by rw [hD]⟩

/-- Witness for C3: deep-oversold momentum values that would fire
    "STRONG BUY"/"BUY SIGNAL" are still vetoed by adx 15. -/
theorem decision_chop_avoid_witness :
    (decisionEngine 100 90 25 15 5 1).signal = "AVOID" ∧
    (decisionEngine 100 90 25 15 5 1).reason
      = "Weak Trend (ADX " ++ toString (round (15 : ℚ)) ++ "). Chop Zone." ∧
    (∃ u v : String, (decisionEngine 100 90 25 15 5 1).reason = u ++ "Chop Zone" ++ v) ∧
    (∃ u v : String,
      (decisionEngine 100 90 25 15 5 1).reason = u ++ toString (round (15 : ℚ)) ++ v) :=
  decision_chop_avoid 100 90 25 15 5 1 _ (by norm_num) (by norm_num) rfl

/-- C4: with price > ema_200 and adx ≥ 20 the signal is determined by rsi,
    first match wins: rsi < 30 gives "STRONG BUY"; 30 ≤ rsi < 50 gives
    "BUY SIGNAL" when macd > macd_signal and "WATCHLIST" otherwise;
    rsi ≥ 50 gives "WAIT". -/
theorem decision_uptrend_rsi_cases (price ema_200 rsi adx macd macd_signal : ℚ)
    (d : Decision) (h1 : price > ema_200) (h2 : adx ≥ 20)
    (hd : d = decisionEngine price ema_200 rsi adx macd macd_signal) :
    (rsi < 30 → d.signal = "STRONG BUY") ∧
    (30 ≤ rsi → rsi < 50 → macd > macd_signal → d.signal = "BUY SIGNAL") ∧
    (30 ≤ rsi → rsi < 50 → macd ≤ macd_signal → d.signal = "WATCHLIST") ∧
    (50 ≤ rsi → d.signal = "WAIT") := by
  subst hd
  have hna : ¬ (adx < 20) := not_lt.mpr h2
  simp only [decisionEngine, if_pos h1, if_neg hna]
  refine ⟨?_, ?_, ?_, ?_⟩
  · intro h30
    simp [if_pos h30]
  · intro h30 h50 hm
    have hn30 : ¬ (rsi < 30) := not_lt.mpr h30
    simp [if_neg hn30, if_pos h50, if_pos hm]
  · intro h30 h50 hm
    have hn30 : ¬ (rsi < 30) := not_lt.mpr h30
    have hnm : ¬ (macd > macd_signal) := not_lt.mpr hm
    simp [if_neg hn30, if_pos h50, if_neg hnm]
  · intro h50
    have hn30 : ¬ (rsi < 30) := not_lt.mpr (le_trans (by norm_num) h50)
    have hn50 : ¬ (rsi < 50) := not_lt.mpr h50
    simp [if_neg hn30, if_neg hn50]

/-- Witness for C4 at price 100, ema 90, rsi 40, adx 25, macd 1 above its
    signal 0 (the pullback/"BUY SIGNAL" cell of the case split). -/
theorem decision_uptrend_rsi_cases_witness :
    ((40 : ℚ) < 30 → (decisionEngine 100 90 40 25 1 0).signal = "STRONG BUY") ∧
    ((30 : ℚ) ≤ 40 → (40 : ℚ) < 50 → (1 : ℚ) > 0 →
      (decisionEngine 100 90 40 25 1 0).signal = "BUY SIGNAL") ∧
    ((30 : ℚ) ≤ 40 → (40 : ℚ) < 50 → (1 : ℚ) ≤ 0 →
      (decisionEngine 100 90 40 25 1 0).signal = "WATCHLIST") ∧
    ((50 : ℚ) ≤ 40 → (decisionEngine 100 90 40 25 1 0).signal = "WAIT") :=
  decision_uptrend_rsi_cases 100 90 40 25 1 0 _ (by norm_num) (by norm_num) rfl

/-- C5 counterexample: at price 100, atr 3/2, account 10000 and
    risk_pct -1 the guard of the claim holds (positive account, positive
    risk_per_share) on a successfully computed result, yet shares_to_buy
    is the zero-truncation -33 and not the floor -34: the claim's
    "floor" is falsified at this input. -/
theorem plan_floor_counterexample :
    (0 : ℚ) < 10000 ∧
    (100 : ℚ) - round2 (100 - 2 * (3/2)) > 0 ∧
    (fetch_data "T" (.history hist200 snapAtr32) 10000 (-1)).shares_to_buy = -33 ∧
    ⌊(10000 * ((-1 : ℚ) / 100)) / ((100 : ℚ) - round2 (100 - 2 * (3/2)))⌋ = -34 ∧
    (fetch_data "T" (.history hist200 snapAtr32) 10000 (-1)).shares_to_buy ≠
      ⌊(10000 * ((-1 : ℚ) / 100)) / ((100 : ℚ) - round2 (100 - 2 * (3/2)))⌋ := by
  have hstop : round2 (100 - 2 * (3/2) : ℚ) = 97 := by norm_num [round2, round_eq]
  have h200 : hist200.length = 200 := by
    rw [hist200, List.length_append, List.length_replicate]
    rfl
  have hlen : ¬ (hist200 = [] ∨ hist200.length < 200) := by
    intro h
    rcases h with h | h
    · have h0 := congrArg List.length h
      rw [h200] at h0
      simp at h0
    · rw [h200] at h
      exact absurd h (by norm_num)
  have hlast : lastClose hist200 = 100 := by
    rw [lastClose, hist200, List.getLast?_concat]
    rfl
  have hshares : (fetch_data "T" (.history hist200 snapAtr32) 10000 (-1)).shares_to_buy = -33 := by
    simp only [fetch_data, if_neg hlen, computeResult, hlast, snapAtr32]
    rw [tradePlan_neg_risk_eval]
  have hfloor : ⌊(10000 * ((-1 : ℚ) / 100)) / ((100 : ℚ) - round2 (100 - 2 * (3/2)))⌋ = -34 := by
    rw [hstop]
    norm_num
  refine ⟨by norm_num, by rw [hstop]; norm_num, hshares, hfloor, ?_⟩
  rw [hshares, hfloor]
  norm_num

/-- C5 (amended): for every input with account_size > 0, when
    risk_per_share > 0 the share count is the truncation toward zero of
    max_risk_dollars / risk_per_share — which agrees with the claimed
    floor exactly when max_risk_dollars ≥ 0 — and position_cost and
    actual_risk are the stated rounded products; when risk_per_share ≤ 0
    all three sizing fields are 0. -/
theorem plan_sizing_truncation (price atr account_size risk_pct : ℚ) (p : TradePlan)
    (ha : 0 < account_size) (hp : p = tradePlan price atr account_size risk_pct) :
    (price - p.stop_loss > 0 →
      p.shares_to_buy
        = pytrunc (account_size * (risk_pct / 100) / (price - p.stop_loss)) ∧
      (0 ≤ account_size * (risk_pct / 100) →
        p.shares_to_buy
          = ⌊account_size * (risk_pct / 100) / (price - p.stop_loss)⌋) ∧
      p.position_cost = round2 ((p.shares_to_buy : ℚ) * price) ∧
      p.actual_risk = round2 ((p.shares_to_buy : ℚ) * (price - p.stop_loss))) ∧
    (price - p.stop_loss ≤ 0 →
      p.shares_to_buy = 0 ∧ p.position_cost = 0 ∧ p.actual_risk = 0) := by
  subst hp
  simp only [tradePlan]
  constructor
  · intro h
    simp only [if_pos h]
    refine ⟨trivial, ?_, trivial, trivial⟩
    intro hm
    have hq : 0 ≤ account_size * (risk_pct / 100) / (price - round2 (price - 2 * atr)) :=
      div_nonneg hm (le_of_lt h)
    rw [pytrunc, if_pos hq]
  · intro h
    have hn : ¬ (price - round2 (price - 2 * atr) > 0) := not_lt.mpr h
    simp only [if_neg hn]
    refine ⟨trivial, ?_, ?_⟩
    · simp only [Int.cast_zero, zero_mul, round2_zero]
    · simp only [Int.cast_zero, zero_mul, round2_zero]

/-- Witness for C5 (amended) at price 100, atr 2, account 10000,
    risk 1 percent. -/
theorem plan_sizing_truncation_witness :
    ((100 : ℚ) - (tradePlan 100 2 10000 1).stop_loss > 0 →
      (tradePlan 100 2 10000 1).shares_to_buy
        = pytrunc ((10000 : ℚ) * (1 / 100) / (100 - (tradePlan 100 2 10000 1).stop_loss)) ∧
      ((0 : ℚ) ≤ 10000 * (1 / 100) →
        (tradePlan 100 2 10000 1).shares_to_buy
          = ⌊(10000 : ℚ) * (1 / 100) / (100 - (tradePlan 100 2 10000 1).stop_loss)⌋) ∧
      (tradePlan 100 2 10000 1).position_cost
        = round2 (((tradePlan 100 2 10000 1).shares_to_buy : ℚ) * 100) ∧
      (tradePlan 100 2 10000 1).actual_risk
        = round2 (((tradePlan 100 2 10000 1).shares_to_buy : ℚ)
            * (100 - (tradePlan 100 2 10000 1).stop_loss))) ∧
    ((100 : ℚ) - (tradePlan 100 2 10000 1).stop_loss ≤ 0 →
      (tradePlan 100 2 10000 1).shares_to_buy = 0 ∧
      (tradePlan 100 2 10000 1).position_cost = 0 ∧
      (tradePlan 100 2 10000 1).actual_risk = 0) :=
  plan_sizing_truncation 100 2 10000 1 _ (by norm_num) rfl

/-- C6 counterexample: at price 100 and atr 1/250 (= 0.004) the
    risk_per_share is positive (0.01 after stop rounding), yet
    risk_reward evaluates to 1, not the claimed 1.5: the two-decimal
    rounding of stop and target skews the ratio. -/
theorem risk_reward_counterexample :
    (100 : ℚ) - round2 (100 - 2 * (1/250)) > 0 ∧
    (tradePlan 100 (1/250) 10000 1).risk_reward = 1 ∧ (1 : ℚ) ≠ 3/2 := by
  have hstop : round2 (100 - 2 * (1/250) : ℚ) = 9999/100 := by norm_num [round2, round_eq]
  have htp : round2 (100 + 3 * (1/250) : ℚ) = 10001/100 := by norm_num [round2, round_eq]
  refine ⟨by rw [hstop]; norm_num, ?_, by norm_num⟩
  rw [tradePlan, hstop, htp]
  norm_num [round2, round_eq]

/-- C6 (amended): risk_reward is
    round2((take_profit - price) / (price - stop_loss)) whenever
    risk_per_share > 0 and 0 otherwise; it equals 1.5 whenever atr > 0 and
    price and atr are exact 2-decimal values (so the stop/target rounding
    is exact), but not for every positive risk_per_share. -/
theorem risk_reward_formula (price atr account_size risk_pct : ℚ) (p : TradePlan)
    (hp : p = tradePlan price atr account_size risk_pct) :
    (price - p.stop_loss > 0 →
      p.risk_reward = round2 ((p.take_profit - price) / (price - p.stop_loss))) ∧
    (price - p.stop_loss ≤ 0 → p.risk_reward = 0) ∧
    (0 < atr → (∃ m : ℤ, 100 * price = m) → (∃ n : ℤ, 100 * atr = n) →
      p.risk_reward = 3/2) := by
  subst hp
  simp only [tradePlan]
  refine ⟨?_, ?_, ?_⟩
  · intro h
    simp only [if_pos h]
  · intro h
    simp only [if_neg (not_lt.mpr h)]
  · rintro hatr ⟨m, hm⟩ ⟨n, hn⟩
    have hstop : round2 (price - 2 * atr) = price - 2 * atr :=
      round2_eq_self_of_int _ (m - 2 * n) (by push_cast; linarith)
    have htp : round2 (price + 3 * atr) = price + 3 * atr :=
      round2_eq_self_of_int _ (m + 3 * n) (by push_cast; linarith)
    rw [hstop, htp]
    have hrps : price - (price - 2 * atr) > 0 := by linarith
    rw [if_pos hrps]
    have h1 : price + 3 * atr - price = 3 * atr := by ring
    have h2 : price - (price - 2 * atr) = 2 * atr := by ring
    rw [h1, h2]
    have h3 : 3 * atr / (2 * atr) = 3 / 2 := by
      rw [mul_comm 3 atr, mul_comm 2 atr, mul_div_mul_left 3 2 (ne_of_gt hatr)]
    rw [h3]
    norm_num [round2, round_eq]

/-- Witness for C6 (amended): at price 100, atr 2 the ratio is exactly
    1.5. -/
theorem risk_reward_formula_witness :
    (tradePlan 100 2 10000 1).risk_reward = 3/2 :=
  (risk_reward_formula 100 2 10000 1 _ rfl).2.2 (by norm_num)
    ⟨10000, by norm_num⟩ ⟨200, by norm_num⟩

/-- C7: a fetch/compute failure yields the calc-error sentinel — trend and
    signal "Error", reason the stringified failure detail, error tag
    "Calc Error", every numeric field 0 — and in the gathered batch a
    failing ticker contributes exactly that one sentinel while every other
    ticker's result is exactly what it would have been anyway: the failure
    never crosses the batch boundary. -/
theorem fetch_data_error_isolation (ticker msg : String) (account_size risk_pct : ℚ)
    (pre post : List (String × FetchOutcome)) :
    let res := fetch_data ticker (.failure msg) account_size risk_pct
    res.trend = "Error" ∧ res.signal = "Error" ∧ res.reason = msg ∧
    res.error = some "Calc Error" ∧ res.price = 0 ∧ res.ema_200 = 0 ∧ res.rsi = 0 ∧
    res.adx = 0 ∧ res.macd = 0 ∧ res.macd_signal = 0 ∧ res.atr = 0 ∧ res.volume = 0 ∧
    res.avg_volume = 0 ∧ res.stop_loss = 0 ∧ res.take_profit = 0 ∧ res.risk_reward = 0 ∧
    res.shares_to_buy = 0 ∧ res.position_cost = 0 ∧ res.actual_risk = 0 ∧
    gatherResults (pre ++ (ticker, .failure msg) :: post) account_size risk_pct
      = gatherResults pre account_size risk_pct ++
        res :: gatherResults post account_size risk_pct := by
  simp [fetch_data, gatherResults, errorResult]

/-- C8: the batch output is the stable ascending sort by the fixed signal
    priorities (STRONG BUY 0, BUY SIGNAL 1, WATCHLIST 2, WAIT 3, AVOID 4,
    anything else — "Error" and "N/A" included — 5): the output is
    pairwise ordered by priority, each priority class keeps its original
    order (the filtered subsequences are unchanged), and the concrete
    batch [WAIT, STRONG BUY, AVOID, BUY SIGNAL] comes out as
    [STRONG BUY, BUY SIGNAL, WAIT, AVOID]. -/
theorem scan_sort_priority_stable :
    (∀ rs : List StockResult,
      List.Pairwise (fun a b => priority a.signal ≤ priority b.signal) (sortResults rs)) ∧
    (∀ (rs : List StockResult) (p : Nat),
      (sortResults rs).filter (fun r => decide (priority r.signal = p))
        = rs.filter (fun r => decide (priority r.signal = p))) ∧
    (∀ s : String, s ≠ "STRONG BUY" → s ≠ "BUY SIGNAL" → s ≠ "WATCHLIST" →
      s ≠ "WAIT" → s ≠ "AVOID" → priority s = 5) ∧
    priority "STRONG BUY" = 0 ∧ priority "BUY SIGNAL" = 1 ∧ priority "WATCHLIST" = 2 ∧
    priority "WAIT" = 3 ∧ priority "AVOID" = 4 ∧ priority "Error" = 5 ∧ priority "N/A" = 5 ∧
    (sortResults [signalOnly "WAIT", signalOnly "STRONG BUY",
        signalOnly "AVOID", signalOnly "BUY SIGNAL"]).map StockResult.signal
      = ["STRONG BUY", "BUY SIGNAL", "WAIT", "AVOID"] := by
  refine ⟨?_, ?_, ?_, by decide, by decide, by decide, by decide, by decide,
    by decide, by decide, ?_⟩
  · intro rs
    haveI : IsTotal StockResult (fun a b => priority a.signal ≤ priority b.signal) :=
      ⟨fun a b => le_total _ _⟩
    haveI : IsTrans StockResult (fun a b => priority a.signal ≤ priority b.signal) :=
      ⟨fun a b c hab hbc => le_trans hab hbc⟩
    exact List.sorted_insertionSort _ rs
  · intro rs p
    have hpair : (rs.filter (fun r => decide (priority r.signal = p))).Pairwise
        (fun a b => priority a.signal ≤ priority b.signal) := by
      apply List.pairwise_of_forall_mem_list
      intro a ha b hb
      have hpa : priority a.signal = p := by
        have := (List.mem_filter.mp ha).2
        simpa using this
      have hpb : priority b.signal = p := by
        have := (List.mem_filter.mp hb).2
        simpa using this
      rw [hpa, hpb]
    have hsub : List.Sublist (rs.filter (fun r => decide (priority r.signal = p)))
        (sortResults rs) := by
      rw [sortResults]
      exact List.sublist_insertionSort hpair (List.filter_sublist rs)
    have hself : (rs.filter (fun r => decide (priority r.signal = p))).filter
          (fun r => decide (priority r.signal = p))
        = rs.filter (fun r => decide (priority r.signal = p)) := by
      rw [List.filter_eq_self]
      intro a ha
      exact (List.mem_filter.mp ha).2
    have hsub2 := List.Sublist.filter (fun r => decide (priority r.signal = p)) hsub
    rw [hself] at hsub2
    have hperm : List.Perm (sortResults rs) rs := List.perm_insertionSort _ rs
    have hlen : ((sortResults rs).filter (fun r => decide (priority r.signal = p))).length
        = (rs.filter (fun r => decide (priority r.signal = p))).length :=
      (hperm.filter _).length_eq
    exact (hsub2.eq_of_length hlen.symm).symm
  · intro s h1 h2 h3 h4 h5
    simp [priority, h1, h2, h3, h4, h5]
  · simp [sortResults, List.insertionSort, List.orderedInsert, signalOnly, priority]

/-- Witness for C8: an unlisted signal string falls in the default
    priority class 5. -/
theorem scan_sort_priority_stable_witness : priority "Calc Error" = 5 :=
  scan_sort_priority_stable.2.2.1 "Calc Error" (by decide) (by decide) (by decide)
    (by decide) (by decide)

/-- C9: both failure sentinels carry affordable = false even though their
    position_cost is 0 and 0 ≤ account_size, so the equivalence
    affordable = (position_cost ≤ account_size) holds on the successfully
    computed path but not on the failure sentinels. -/
theorem affordable_false_on_failures (ticker msg : String) (account_size risk_pct : ℚ)
    (ha : 0 ≤ account_size) :
    ((insufficientResult ticker).affordable = false ∧
     (insufficientResult ticker).position_cost = 0 ∧
     (insufficientResult ticker).position_cost ≤ account_size) ∧
    ((errorResult ticker msg).affordable = false ∧
     (errorResult ticker msg).position_cost = 0 ∧
     (errorResult ticker msg).position_cost ≤ account_size) ∧
    (∀ (hist : List PriceBar) (snap : IndicatorSnapshot),
      ¬ (hist = [] ∨ hist.length < 200) →
      ((fetch_data ticker (.history hist snap) account_size risk_pct).affordable = true ↔
        (fetch_data ticker (.history hist snap) account_size risk_pct).position_cost
          ≤ account_size)) := by
  refine ⟨⟨rfl, rfl, ha⟩, ⟨rfl, rfl, ha⟩, ?_⟩
  intro hist snap h
  simp only [fetch_data]
  rw [if_neg h]
  exact decide_eq_true_iff

/-- Witness for C9 at account 10000. -/
theorem affordable_false_on_failures_witness :
    ((insufficientResult "t").affordable = false ∧
     (insufficientResult "t").position_cost = 0 ∧
     (insufficientResult "t").position_cost ≤ (10000 : ℚ)) ∧
    ((errorResult "t" "boom").affordable = false ∧
     (errorResult "t" "boom").position_cost = 0 ∧
     (errorResult "t" "boom").position_cost ≤ (10000 : ℚ)) ∧
    (∀ (hist : List PriceBar) (snap : IndicatorSnapshot),
      ¬ (hist = [] ∨ hist.length < 200) →
      ((fetch_data "t" (.history hist snap) 10000 1).affordable = true ↔
        (fetch_data "t" (.history hist snap) 10000 1).position_cost ≤ (10000 : ℚ))) :=
  affordable_false_on_failures "t" "boom" 10000 1 (by norm_num)

/-- C10: the planner has no guard on a negative risk percentage — at 200
    bars closing at 100, atr 3/2, account 10000 and risk_pct -1 the
    successfully computed result has shares_to_buy -33 (negative, the
    zero-truncation of -100/3 where a floor would give -34) and negative
    position_cost and actual_risk. -/
theorem negative_risk_pct_negative_shares :
    (fetch_data "T" (.history hist200 snapAtr32) 10000 (-1)).shares_to_buy = -33 ∧
    (fetch_data "T" (.history hist200 snapAtr32) 10000 (-1)).shares_to_buy < 0 ∧
    (fetch_data "T" (.history hist200 snapAtr32) 10000 (-1)).position_cost = -3300 ∧
    (fetch_data "T" (.history hist200 snapAtr32) 10000 (-1)).position_cost < 0 ∧
    (fetch_data "T" (.history hist200 snapAtr32) 10000 (-1)).actual_risk = -99 ∧
    (fetch_data "T" (.history hist200 snapAtr32) 10000 (-1)).actual_risk < 0 ∧
    pytrunc ((10000 * ((-1 : ℚ) / 100)) / 3) = -33 ∧
    ⌊(10000 * ((-1 : ℚ) / 100)) / 3⌋ = -34 := by
  have h200 : hist200.length = 200 := by
    rw [hist200, List.length_append, List.length_replicate]
    rfl
  have hlen : ¬ (hist200 = [] ∨ hist200.length < 200) := by
    intro h
    rcases h with h | h
    · have h0 := congrArg List.length h
      rw [h200] at h0
      simp at h0
    · rw [h200] at h
      exact absurd h (by norm_num)
  have hlast : lastClose hist200 = 100 := by
    rw [lastClose, hist200, List.getLast?_concat]
    rfl
  have hres : (fetch_data "T" (.history hist200 snapAtr32) 10000 (-1)).shares_to_buy = -33 ∧
      (fetch_data "T" (.history hist200 snapAtr32) 10000 (-1)).position_cost = -3300 ∧
      (fetch_data "T" (.history hist200 snapAtr32) 10000 (-1)).actual_risk = -99 := by
    simp only [fetch_data, if_neg hlen, computeResult, hlast, snapAtr32]
    rw [tradePlan_neg_risk_eval]
    exact ⟨rfl, rfl, rfl⟩
  obtain ⟨h1, h2, h3⟩ := hres
  refine ⟨h1, ?_, h2, ?_, h3, ?_, ?_, ?_⟩
  · rw [h1]
    decide
  · rw [h2]
    norm_num
  · rw [h3]
    norm_num
  · norm_num [pytrunc, Int.ceil_neg]
  · norm_num
